import Mathlib

/-!
Verification of the SOMANET hardware-in-the-loop test framework's
command/response protocol layer (`oscmd_helpers.py`), motion-profile
supervisors (`profiler_helpers.py`) and toolbox utilities (`toolbox.py`).

Conventions of the embedding:
* Byte values and status codes are naturals; device responses are lists of
  naturals (the firmware always delivers 8-byte frames, so indices 0..7 are
  in range and list indexing uses `List.getD` with default 0).
* Wall-clock time is modelled in milliseconds as a natural number; the
  fixed inter-poll `time.sleep(0.010)` advances the clock by 10 ms, and
  adapter timeouts are expressed in the same millisecond clock.
* Python floats are modelled as exact rationals; `int(...)` truncation
  toward zero is `pyInt`.
* Python compares status bytes with `is` against enum `.value`s; all those
  values are small integers interned by CPython, so `is` coincides with
  numeric equality and is embedded as `=`.
* `pytest.fail` and raised exceptions terminate the surrounding call; they
  are embedded as explicit error results.
-/

/-! ## OS command protocol layer (`oscmd_helpers.py`) -/

/-- `OsCmdModes.EXECUTE_NEXT_CMD.value` -/
def OsCmdModes.EXECUTE_NEXT_CMD : ℕ := 0

/-- `OsCmdModes.ABORT_ALL_CMD.value` -/
def OsCmdModes.ABORT_ALL_CMD : ℕ := 3

/-- `OsCmdStatus.COMPLETED_NOERROR_NOREPLY.value` -/
def OsCmdStatus.COMPLETED_NOERROR_NOREPLY : ℕ := 0

/-- `OsCmdStatus.COMPLETED_NOERROR_WITHREPLY.value` -/
def OsCmdStatus.COMPLETED_NOERROR_WITHREPLY : ℕ := 1

/-- `OsCmdStatus.COMPLETED_WITHERROR_NOREPLY.value` -/
def OsCmdStatus.COMPLETED_WITHERROR_NOREPLY : ℕ := 2

/-- `OsCmdStatus.COMPLETED_WITHERROR_WITHREPLY.value` -/
def OsCmdStatus.COMPLETED_WITHERROR_WITHREPLY : ℕ := 3

/-- `OsCmdStatus.IN_PROCESS_0.value` -/
def OsCmdStatus.IN_PROCESS_0 : ℕ := 100

/-- `OsCmdStatus.IN_PROCESS_100.value` -/
def OsCmdStatus.IN_PROCESS_100 : ℕ := 200

/-- `OsCmdStatus.CMD_IN_PROGRESS.value` -/
def OsCmdStatus.CMD_IN_PROGRESS : ℕ := 255

/-- The four terminal completion statuses of the taxonomy. -/
def terminalStatuses : List ℕ :=
  [OsCmdStatus.COMPLETED_NOERROR_NOREPLY, OsCmdStatus.COMPLETED_NOERROR_WITHREPLY,
   OsCmdStatus.COMPLETED_WITHERROR_NOREPLY, OsCmdStatus.COMPLETED_WITHERROR_WITHREPLY]

/-- `OsCmdHandler.__init__`:
`self.status_in_progress = [CMD_IN_PROGRESS.value] + list(range(IN_PROCESS_0.value, IN_PROCESS_100.value + 1))`. -/
def status_in_progress : List ℕ :=
  [OsCmdStatus.CMD_IN_PROGRESS] ++
    List.range' OsCmdStatus.IN_PROCESS_0 (OsCmdStatus.IN_PROCESS_100 + 1 - OsCmdStatus.IN_PROCESS_0)

/-- Mutable state of an `OsCmdHandler` instance (after `__init__`,
`current_command = None`, `current_mode = EXECUTE_NEXT_CMD`;
`status_in_progress` is the same constant list for every instance). -/
structure OsCmdHandler where
  current_command : Option (List ℕ)
  current_mode : ℕ

/-- Device-parameter writes performed through the object-dictionary interface `od`. -/
inductive OdWrite
  | os_command_command (cmd : List ℕ)
deriving DecidableEq

/-- Failure mode of `execute_command`: `pytest.fail` when a command is already in flight. -/
inductive ProtocolError
  | protocolBusy
deriving DecidableEq

/-- `OsCmdHandler.execute_command`: fails (via `pytest.fail`) when
`self.current_command is not None`, performing no device write; otherwise
records the command as in flight and performs the single write
`self.od.os_command_command(bytes(command))`. -/
def OsCmdHandler.execute_command (self : OsCmdHandler) (command : List ℕ) :
    Except ProtocolError OsCmdHandler × List OdWrite :=
  match self.current_command with
  | some _ => (Except.error ProtocolError.protocolBusy, [])
  | none =>
      (Except.ok { self with current_command := some command },
       [OdWrite.os_command_command command])

/-- `OsCmdHandler.get_response`: reads the raw response; when its status byte is
not a member of `status_in_progress` the in-flight marker is cleared
(`self.current_command = None`) before the raw response is returned. -/
def OsCmdHandler.get_response (self : OsCmdHandler) (response : List ℕ) :
    List ℕ × OsCmdHandler :=
  if response.getD 0 0 ∈ status_in_progress then
    (response, self)
  else
    (response, { self with current_command := none })

/-- `OsCmdHandler.get_active_command`. -/
def OsCmdHandler.get_active_command (self : OsCmdHandler) : Option (List ℕ) :=
  self.current_command

/-- Membership in the in-progress status set, arithmetically. -/
theorem mem_status_in_progress_iff (s : ℕ) :
    s ∈ status_in_progress ↔ s = 255 ∨ (100 ≤ s ∧ s ≤ 200) := by
  unfold status_in_progress OsCmdStatus.CMD_IN_PROGRESS OsCmdStatus.IN_PROCESS_0
    OsCmdStatus.IN_PROCESS_100
  simp only [List.cons_append, List.nil_append, List.mem_cons, List.mem_range']
  constructor
  · rintro (rfl | ⟨i, hi, rfl⟩) <;> omega
  · rintro (rfl | ⟨h1, h2⟩)
    · left; rfl
    · right; exact ⟨s - 100, by omega, by omega⟩

/-- Claim C1: whenever a prior command is still in flight
(`current_command ≠ none`), `execute_command` fails with `ProtocolBusy`,
performs no device write and leaves the channel state unchanged; when no
command is in flight it performs exactly the one write sending the command
and marks the command in flight. -/
theorem execute_command_busy_or_sends (self : OsCmdHandler) (command : List ℕ) :
    (self.current_command ≠ none →
      self.execute_command command = (Except.error ProtocolError.protocolBusy, [])) ∧
    (self.current_command = none →
      self.execute_command command =
        (Except.ok { self with current_command := some command },
         [OdWrite.os_command_command command]) ∧
      (self.execute_command command).2.length = 1 ∧
      ∀ st', (self.execute_command command).1 = Except.ok st' →
        st'.get_active_command = some command) := by
  constructor
  · intro h
    match hc : self.current_command with
    | some c => simp [OsCmdHandler.execute_command, hc]
    | none => exact absurd hc h
  · intro h
    refine ⟨by simp [OsCmdHandler.execute_command, h], by simp [OsCmdHandler.execute_command, h], ?_⟩
    intro st' hst'
    simp [OsCmdHandler.execute_command, h] at hst'
    simp [← hst', OsCmdHandler.get_active_command]

/-- Witness for C1 at a concrete busy channel and a concrete idle channel. -/
theorem execute_command_busy_or_sends_witness :
    (OsCmdHandler.execute_command ⟨some [5, 0, 0, 0, 0, 0, 0, 0], 0⟩ [1, 2, 3, 4, 0, 0, 0, 0] =
      (Except.error ProtocolError.protocolBusy, [])) ∧
    (OsCmdHandler.execute_command ⟨none, 0⟩ [1, 2, 3, 4, 0, 0, 0, 0] =
      (Except.ok ⟨some [1, 2, 3, 4, 0, 0, 0, 0], 0⟩,
       [OdWrite.os_command_command [1, 2, 3, 4, 0, 0, 0, 0]])) :=
  ⟨(execute_command_busy_or_sends ⟨some [5, 0, 0, 0, 0, 0, 0, 0], 0⟩
      [1, 2, 3, 4, 0, 0, 0, 0]).1 (by simp),
   ((execute_command_busy_or_sends ⟨none, 0⟩ [1, 2, 3, 4, 0, 0, 0, 0]).2 rfl).1⟩

/-- Claim C2: for every status byte in the in-progress set (the range
`IN_PROCESS_0..IN_PROCESS_100` plus the `CMD_IN_PROGRESS` sentinel),
`get_response` returns the raw response without clearing the in-flight
marker; for every terminal status it clears the marker, so the channel's
active command becomes `none`. -/
theorem get_response_clears_iff_terminal (self : OsCmdHandler) (response : List ℕ) :
    (response.getD 0 0 ∈ status_in_progress →
      self.get_response response = (response, self)) ∧
    (response.getD 0 0 ∈ terminalStatuses →
      (self.get_response response).1 = response ∧
      ((self.get_response response).2).get_active_command = none) := by
  constructor
  · intro h
    unfold OsCmdHandler.get_response
    rw [if_pos h]
  · intro h
    have hterm : response.getD 0 0 ∉ status_in_progress := by
      generalize response.getD 0 0 = x at h ⊢
      rw [mem_status_in_progress_iff]
      simp only [terminalStatuses, OsCmdStatus.COMPLETED_NOERROR_NOREPLY,
        OsCmdStatus.COMPLETED_NOERROR_WITHREPLY, OsCmdStatus.COMPLETED_WITHERROR_NOREPLY,
        OsCmdStatus.COMPLETED_WITHERROR_WITHREPLY, List.mem_cons, List.mem_singleton,
        List.not_mem_nil, or_false] at h
      omega
    unfold OsCmdHandler.get_response
    rw [if_neg hterm]
    exact ⟨rfl, rfl⟩

/-- Witness for C2: an in-progress status (150) leaves the in-flight command;
a terminal status (1) clears it. -/
theorem get_response_clears_iff_terminal_witness :
    (OsCmdHandler.get_response ⟨some [5, 0, 0, 0, 0, 0, 0, 0], 0⟩ [150, 0, 0, 0, 0, 0, 0, 0] =
      ([150, 0, 0, 0, 0, 0, 0, 0], ⟨some [5, 0, 0, 0, 0, 0, 0, 0], 0⟩)) ∧
    ((OsCmdHandler.get_response ⟨some [5, 0, 0, 0, 0, 0, 0, 0], 0⟩
        [1, 7, 0, 0, 0, 0, 0, 0]).2.get_active_command = none) :=
  ⟨(get_response_clears_iff_terminal ⟨some [5, 0, 0, 0, 0, 0, 0, 0], 0⟩
      [150, 0, 0, 0, 0, 0, 0, 0]).1 (by decide),
   ((get_response_clears_iff_terminal ⟨some [5, 0, 0, 0, 0, 0, 0, 0], 0⟩
      [1, 7, 0, 0, 0, 0, 0, 0]).2 (by decide)).2⟩

/-! ## Command adapters: shared error tables and polling loops -/

/-- `OsCmdErrorCodes` member values (generic error codes). -/
def OsCmdErrorCodesValues : List ℕ := [251, 252, 253, 254, 255]

/-- `OsCmdErrorCodes(code).name` for the generic error codes. -/
def osCmdErrorName (c : ℕ) : String :=
  if c = 251 then "CMD_NOT_ALLOWED"
  else if c = 252 then "CMD_ABORTED"
  else if c = 253 then "CMD_TIMEOUT"
  else if c = 254 then "UNSUPPORTED_CMD"
  else "RESERVED_FOR_EXTENSION"

/-- `OsCmd3ErrorCodes` member values (HRD-streaming specific error codes). -/
def OsCmd3ErrorCodesValues : List ℕ := [0, 1, 2, 3]

/-- `OsCmd3ErrorCodes(code).name`. -/
def osCmd3ErrorName (c : ℕ) : String :=
  if c = 0 then "INITIALIZATION_ERROR"
  else if c = 1 then "STREAMING_ERROR"
  else if c = 2 then "DURATION_VALUE_ERROR"
  else "DATA_INDEX_VALUE_ERROR"

/-- Termination of a `check_response` polling loop: the returned value, or the
exception/`pytest.fail` that ended it.  `timedOut t` records the model clock
(ms since the loop started) at which the timeout check fired. -/
inductive OsCmdOutcome
  | successValue (v : ℕ)
  | successTrue
  | deviceError (code : ℕ) (name : String)
  | deviceErrorNoCode
  | unknownError (code : ℕ)
  | invalidStatus (status : ℕ)
  | timedOut (t : ℕ)
deriving DecidableEq

/-- `EncoderRegisterCommunicationHandler.check_response` loop body.
`deadline` is `time.time() + self.timeout` at entry (clock starts at `now`),
`polls k` is the response delivered by the k-th `get_response()` call,
and each iteration's `time.sleep(0.010)` advances the clock by 10 ms. -/
def encoderCheckResponseAux (deadline : ℕ) (polls : ℕ → List ℕ) (k now : ℕ) :
    OsCmdOutcome :=
  let response := polls k
  if response.getD 0 0 = OsCmdStatus.COMPLETED_NOERROR_WITHREPLY then
    OsCmdOutcome.successValue (response.getD 2 0)
  else if response.getD 0 0 = OsCmdStatus.COMPLETED_WITHERROR_WITHREPLY then
    if response.getD 2 0 ∈ OsCmdErrorCodesValues then
      OsCmdOutcome.deviceError (response.getD 2 0) (osCmdErrorName (response.getD 2 0))
    else
      OsCmdOutcome.unknownError (response.getD 2 0)
  else if response.getD 0 0 = OsCmdStatus.COMPLETED_WITHERROR_NOREPLY then
    OsCmdOutcome.deviceErrorNoCode
  else if response.getD 0 0 ∈ status_in_progress then
    if _h : now + 10 > deadline then
      OsCmdOutcome.timedOut (now + 10)
    else
      encoderCheckResponseAux deadline polls (k + 1) (now + 10)
  else
    OsCmdOutcome.invalidStatus (response.getD 0 0)
termination_by deadline - now
decreasing_by omega

/-- `EncoderRegisterCommunicationHandler.check_response`, with the model clock
started at 0 and `timeoutMs` the adapter's timeout expressed in milliseconds. -/
def encoderCheckResponse (timeoutMs : ℕ) (polls : ℕ → List ℕ) : OsCmdOutcome :=
  encoderCheckResponseAux timeoutMs polls 0 0

/-- `HrdStreamingHandler.check_response` loop body: success is
`COMPLETED_NOERROR_NOREPLY`, and error decoding consults the generic table
first, then the `OsCmd3ErrorCodes` table. -/
def hrdCheckResponseAux (deadline : ℕ) (polls : ℕ → List ℕ) (k now : ℕ) :
    OsCmdOutcome :=
  let response := polls k
  if response.getD 0 0 = OsCmdStatus.COMPLETED_NOERROR_NOREPLY then
    OsCmdOutcome.successTrue
  else if response.getD 0 0 = OsCmdStatus.COMPLETED_WITHERROR_WITHREPLY then
    if response.getD 2 0 ∈ OsCmdErrorCodesValues then
      OsCmdOutcome.deviceError (response.getD 2 0) (osCmdErrorName (response.getD 2 0))
    else if response.getD 2 0 ∈ OsCmd3ErrorCodesValues then
      OsCmdOutcome.deviceError (response.getD 2 0) (osCmd3ErrorName (response.getD 2 0))
    else
      OsCmdOutcome.unknownError (response.getD 2 0)
  else if response.getD 0 0 = OsCmdStatus.COMPLETED_WITHERROR_NOREPLY then
    OsCmdOutcome.deviceErrorNoCode
  else if response.getD 0 0 ∈ status_in_progress then
    if _h : now + 10 > deadline then
      OsCmdOutcome.timedOut (now + 10)
    else
      hrdCheckResponseAux deadline polls (k + 1) (now + 10)
  else
    OsCmdOutcome.invalidStatus (response.getD 0 0)
termination_by deadline - now
decreasing_by omega

/-- `HrdStreamingHandler.check_response` with clock started at 0. -/
def hrdCheckResponse (timeoutMs : ℕ) (polls : ℕ → List ℕ) : OsCmdOutcome :=
  hrdCheckResponseAux timeoutMs polls 0 0

/-- `CommutationOffsetMeasurementHandler.check_response` loop body: on
`COMPLETED_NOERROR_WITHREPLY` returns `response[2] << 8 | response[3]`. -/
def commutationCheckResponseAux (deadline : ℕ) (polls : ℕ → List ℕ) (k now : ℕ) :
    OsCmdOutcome :=
  let response := polls k
  if response.getD 0 0 = OsCmdStatus.COMPLETED_NOERROR_WITHREPLY then
    OsCmdOutcome.successValue (response.getD 2 0 <<< 8 ||| response.getD 3 0)
  else if response.getD 0 0 = OsCmdStatus.COMPLETED_WITHERROR_WITHREPLY then
    if response.getD 2 0 ∈ OsCmdErrorCodesValues then
      OsCmdOutcome.deviceError (response.getD 2 0) (osCmdErrorName (response.getD 2 0))
    else
      OsCmdOutcome.unknownError (response.getD 2 0)
  else if response.getD 0 0 = OsCmdStatus.COMPLETED_WITHERROR_NOREPLY then
    OsCmdOutcome.deviceErrorNoCode
  else if response.getD 0 0 ∈ status_in_progress then
    if _h : now + 10 > deadline then
      OsCmdOutcome.timedOut (now + 10)
    else
      commutationCheckResponseAux deadline polls (k + 1) (now + 10)
  else
    OsCmdOutcome.invalidStatus (response.getD 0 0)
termination_by deadline - now
decreasing_by omega

/-- `CommutationOffsetMeasurementHandler.check_response` with clock started at 0. -/
def commutationCheckResponse (timeoutMs : ℕ) (polls : ℕ → List ℕ) : OsCmdOutcome :=
  commutationCheckResponseAux timeoutMs polls 0 0

/-- The adapters' 4-byte big-endian reply decoding rule
(`response[2] << 24 | response[3] << 16 | response[4] << 8 | response[5]`,
as in `PhaseResistanceMeasurementHandler.check_response`). -/
def decodeReply4 (response : List ℕ) : ℕ :=
  response.getD 2 0 <<< 24 ||| response.getD 3 0 <<< 16 |||
    response.getD 4 0 <<< 8 ||| response.getD 5 0

/-- `PhaseResistanceMeasurementHandler.check_response` loop body: on
`COMPLETED_NOERROR_WITHREPLY` returns the 4-byte big-endian decoded value. -/
def phaseResistanceCheckResponseAux (deadline : ℕ) (polls : ℕ → List ℕ) (k now : ℕ) :
    OsCmdOutcome :=
  let response := polls k
  if response.getD 0 0 = OsCmdStatus.COMPLETED_NOERROR_WITHREPLY then
    OsCmdOutcome.successValue (decodeReply4 response)
  else if response.getD 0 0 = OsCmdStatus.COMPLETED_WITHERROR_WITHREPLY then
    if response.getD 2 0 ∈ OsCmdErrorCodesValues then
      OsCmdOutcome.deviceError (response.getD 2 0) (osCmdErrorName (response.getD 2 0))
    else
      OsCmdOutcome.unknownError (response.getD 2 0)
  else if response.getD 0 0 = OsCmdStatus.COMPLETED_WITHERROR_NOREPLY then
    OsCmdOutcome.deviceErrorNoCode
  else if response.getD 0 0 ∈ status_in_progress then
    if _h : now + 10 > deadline then
      OsCmdOutcome.timedOut (now + 10)
    else
      phaseResistanceCheckResponseAux deadline polls (k + 1) (now + 10)
  else
    OsCmdOutcome.invalidStatus (response.getD 0 0)
termination_by deadline - now
decreasing_by omega

/-- `PhaseResistanceMeasurementHandler.check_response` with clock started at 0. -/
def phaseResistanceCheckResponse (timeoutMs : ℕ) (polls : ℕ → List ℕ) : OsCmdOutcome :=
  phaseResistanceCheckResponseAux timeoutMs polls 0 0

/-- `OpenLoopFieldModeHandler.set_starting_angle_milli_radian` and its sibling
setters: the command sent, with the 32-bit `value` split big-endian across
bytes b2..b5 (`sub` is the per-setter sub-command byte b1). -/
def openLoopFieldCommand (sub : ℕ) (value : ℕ) : List ℕ :=
  let b5 := value &&& 0x000000FF
  let b4 := (value &&& 0x0000FF00) >>> 8
  let b3 := (value &&& 0x00FF0000) >>> 16
  let b2 := (value &&& 0xFF000000) >>> 24
  [2, sub, b2, b3, b4, b5, 0, 0]

/-- An in-progress status byte is none of the four terminal status values. -/
theorem status_in_progress_ne_terminal {s : ℕ} (h : s ∈ status_in_progress) :
    s ≠ OsCmdStatus.COMPLETED_NOERROR_NOREPLY ∧
    s ≠ OsCmdStatus.COMPLETED_NOERROR_WITHREPLY ∧
    s ≠ OsCmdStatus.COMPLETED_WITHERROR_NOREPLY ∧
    s ≠ OsCmdStatus.COMPLETED_WITHERROR_WITHREPLY := by
  rw [mem_status_in_progress_iff] at h
  unfold OsCmdStatus.COMPLETED_NOERROR_NOREPLY OsCmdStatus.COMPLETED_NOERROR_WITHREPLY
    OsCmdStatus.COMPLETED_WITHERROR_NOREPLY OsCmdStatus.COMPLETED_WITHERROR_WITHREPLY
  omega

/-- Unfolding of the encoder polling loop at an in-progress poll: the loop
either hits the timeout check or continues with the clock advanced 10 ms. -/
theorem encoderCheckResponseAux_in_progress (deadline : ℕ) (polls : ℕ → List ℕ) (k now : ℕ)
    (hs : (polls k).getD 0 0 ∈ status_in_progress) :
    encoderCheckResponseAux deadline polls k now =
      if now + 10 > deadline then OsCmdOutcome.timedOut (now + 10)
      else encoderCheckResponseAux deadline polls (k + 1) (now + 10) := by
  obtain ⟨hn0, hn1, hn2, hn3⟩ := status_in_progress_ne_terminal hs
  rw [encoderCheckResponseAux]
  simp only [if_neg hn1, if_neg hn3, if_neg hn2, if_pos hs]
  split <;> rfl

/-- If the deadline lies at most `m` ms ahead and the clock has not yet passed
it, a run of the encoder loop over always-in-progress polls ends in the
timeout failure, no later than 10 ms past the deadline. -/
theorem encoder_in_progress_times_out_aux (deadline : ℕ) (polls : ℕ → List ℕ)
    (h : ∀ k, (polls k).getD 0 0 ∈ status_in_progress) :
    ∀ m now k, deadline ≤ now + m → now ≤ deadline →
      ∃ t, encoderCheckResponseAux deadline polls k now = OsCmdOutcome.timedOut t ∧
        t ≤ deadline + 10 := by
  intro m
  induction m with
  | zero =>
    intro now k h1 h2
    refine ⟨now + 10, ?_, by omega⟩
    rw [encoderCheckResponseAux_in_progress deadline polls k now (h k), if_pos (by omega)]
  | succ m ih =>
    intro now k h1 h2
    by_cases hd : now + 10 > deadline
    · refine ⟨now + 10, ?_, by omega⟩
      rw [encoderCheckResponseAux_in_progress deadline polls k now (h k), if_pos hd]
    · obtain ⟨t, ht, hle⟩ := ih (now + 10) (k + 1) (by omega) (by omega)
      refine ⟨t, ?_, hle⟩
      rw [encoderCheckResponseAux_in_progress deadline polls k now (h k), if_neg hd]
      exact ht

/-- Claim C3: for every adapter timeout value, if every poll returns an
in-progress status, `check_response` terminates by failing with the
command-timeout failure, at a model clock value (elapsed time) no later than
the timeout plus one 10 ms poll interval. -/
theorem check_response_always_in_progress_times_out (timeoutMs : ℕ) (polls : ℕ → List ℕ)
    (h : ∀ k, (polls k).getD 0 0 ∈ status_in_progress) :
    ∃ t, encoderCheckResponse timeoutMs polls = OsCmdOutcome.timedOut t ∧
      t ≤ timeoutMs + 10 :=
  encoder_in_progress_times_out_aux timeoutMs polls h timeoutMs 0 0 (by omega) (by omega)

/-- Witness for C3: a 25 ms timeout with polls stuck at `CMD_IN_PROGRESS`. -/
theorem check_response_always_in_progress_times_out_witness :
    ∃ t, encoderCheckResponse 25 (fun _ => [255, 0, 0, 0, 0, 0, 0, 0]) =
      OsCmdOutcome.timedOut t ∧ t ≤ 25 + 10 :=
  check_response_always_in_progress_times_out 25 (fun _ => [255, 0, 0, 0, 0, 0, 0, 0])
    (fun k => by
      show ([255, 0, 0, 0, 0, 0, 0, 0] : List ℕ).getD 0 0 ∈ status_in_progress
      decide)

/-- Unfolding of the HRD-streaming polling loop at an in-progress poll. -/
theorem hrdCheckResponseAux_in_progress (deadline : ℕ) (polls : ℕ → List ℕ) (k now : ℕ)
    (hs : (polls k).getD 0 0 ∈ status_in_progress) :
    hrdCheckResponseAux deadline polls k now =
      if now + 10 > deadline then OsCmdOutcome.timedOut (now + 10)
      else hrdCheckResponseAux deadline polls (k + 1) (now + 10) := by
  obtain ⟨hn0, hn1, hn2, hn3⟩ := status_in_progress_ne_terminal hs
  rw [hrdCheckResponseAux]
  simp only [if_neg hn0, if_neg hn3, if_neg hn2, if_pos hs]
  split <;> rfl

/-- While every poll seen so far is in-progress and the deadline has not been
passed, the encoder polling loop just advances: after `k` such polls it
continues from poll `k0 + k` with the clock advanced by `10 * k` ms. -/
theorem encoderCheckResponseAux_skip (deadline : ℕ) (polls : ℕ → List ℕ) :
    ∀ (k k0 now0 : ℕ), (∀ j < k, (polls (k0 + j)).getD 0 0 ∈ status_in_progress) →
      now0 + 10 * k ≤ deadline →
      encoderCheckResponseAux deadline polls k0 now0 =
        encoderCheckResponseAux deadline polls (k0 + k) (now0 + 10 * k) := by
  intro k
  induction k with
  | zero => intro k0 now0 _ _; simp
  | succ k ih =>
    intro k0 now0 hprog hk
    have h0 : (polls k0).getD 0 0 ∈ status_in_progress := by
      have := hprog 0 (by omega)
      simpa using this
    rw [encoderCheckResponseAux_in_progress deadline polls k0 now0 h0,
      if_neg (by omega)]
    have hrec := ih (k0 + 1) (now0 + 10)
      (fun j hj => by
        have := hprog (j + 1) (by omega)
        have he : k0 + (j + 1) = k0 + 1 + j := by omega
        rwa [he] at this)
      (by omega)
    have e1 : k0 + 1 + k = k0 + (k + 1) := by omega
    have e2 : now0 + 10 + 10 * k = now0 + 10 * (k + 1) := by omega
    rw [hrec, e1, e2]

/-- The HRD-streaming analogue of `encoderCheckResponseAux_skip`. -/
theorem hrdCheckResponseAux_skip (deadline : ℕ) (polls : ℕ → List ℕ) :
    ∀ (k k0 now0 : ℕ), (∀ j < k, (polls (k0 + j)).getD 0 0 ∈ status_in_progress) →
      now0 + 10 * k ≤ deadline →
      hrdCheckResponseAux deadline polls k0 now0 =
        hrdCheckResponseAux deadline polls (k0 + k) (now0 + 10 * k) := by
  intro k
  induction k with
  | zero => intro k0 now0 _ _; simp
  | succ k ih =>
    intro k0 now0 hprog hk
    have h0 : (polls k0).getD 0 0 ∈ status_in_progress := by
      have := hprog 0 (by omega)
      simpa using this
    rw [hrdCheckResponseAux_in_progress deadline polls k0 now0 h0,
      if_neg (by omega)]
    have hrec := ih (k0 + 1) (now0 + 10)
      (fun j hj => by
        have := hprog (j + 1) (by omega)
        have he : k0 + (j + 1) = k0 + 1 + j := by omega
        rwa [he] at this)
      (by omega)
    have e1 : k0 + 1 + k = k0 + (k + 1) := by omega
    have e2 : now0 + 10 + 10 * k = now0 + 10 * (k + 1) := by omega
    rw [hrec, e1, e2]

/-- Claim C9: at any reachable poll whose status is error-with-reply (after
`k` in-progress polls within the time budget), the adapters decode the
payload error-code byte: a code in the generic table (or, for the
HRD-streaming adapter, its opcode-specific table) fails with a device-command
error carrying the code and its decoded name; a code in no known enumeration
fails with the unknown-error failure carrying the raw code; and no success
value is ever returned. -/
theorem error_with_reply_decoding (timeoutMs : ℕ) (polls : ℕ → List ℕ) (k : ℕ)
    (hprog : ∀ j < k, (polls j).getD 0 0 ∈ status_in_progress)
    (hk : 10 * k ≤ timeoutMs)
    (h : (polls k).getD 0 0 = OsCmdStatus.COMPLETED_WITHERROR_WITHREPLY) :
    ((polls k).getD 2 0 ∈ OsCmdErrorCodesValues →
      encoderCheckResponse timeoutMs polls =
        OsCmdOutcome.deviceError ((polls k).getD 2 0) (osCmdErrorName ((polls k).getD 2 0)) ∧
      hrdCheckResponse timeoutMs polls =
        OsCmdOutcome.deviceError ((polls k).getD 2 0) (osCmdErrorName ((polls k).getD 2 0))) ∧
    ((polls k).getD 2 0 ∉ OsCmdErrorCodesValues →
      encoderCheckResponse timeoutMs polls =
        OsCmdOutcome.unknownError ((polls k).getD 2 0) ∧
      ((polls k).getD 2 0 ∈ OsCmd3ErrorCodesValues →
        hrdCheckResponse timeoutMs polls =
          OsCmdOutcome.deviceError ((polls k).getD 2 0) (osCmd3ErrorName ((polls k).getD 2 0))) ∧
      ((polls k).getD 2 0 ∉ OsCmd3ErrorCodesValues →
        hrdCheckResponse timeoutMs polls =
          OsCmdOutcome.unknownError ((polls k).getD 2 0))) ∧
    (∀ v, encoderCheckResponse timeoutMs polls ≠ OsCmdOutcome.successValue v) ∧
    hrdCheckResponse timeoutMs polls ≠ OsCmdOutcome.successTrue := by
  have hskipe : encoderCheckResponse timeoutMs polls =
      encoderCheckResponseAux timeoutMs polls k (10 * k) := by
    have := encoderCheckResponseAux_skip timeoutMs polls k 0 0
      (fun j hj => by simpa using hprog j hj) (by omega)
    simpa [encoderCheckResponse] using this
  have hskiph : hrdCheckResponse timeoutMs polls =
      hrdCheckResponseAux timeoutMs polls k (10 * k) := by
    have := hrdCheckResponseAux_skip timeoutMs polls k 0 0
      (fun j hj => by simpa using hprog j hj) (by omega)
    simpa [hrdCheckResponse] using this
  have henc : encoderCheckResponse timeoutMs polls =
      if (polls k).getD 2 0 ∈ OsCmdErrorCodesValues then
        OsCmdOutcome.deviceError ((polls k).getD 2 0) (osCmdErrorName ((polls k).getD 2 0))
      else OsCmdOutcome.unknownError ((polls k).getD 2 0) := by
    rw [hskipe, encoderCheckResponseAux, h]
    rw [if_neg (by decide), if_pos rfl]
  have hhrd : hrdCheckResponse timeoutMs polls =
      if (polls k).getD 2 0 ∈ OsCmdErrorCodesValues then
        OsCmdOutcome.deviceError ((polls k).getD 2 0) (osCmdErrorName ((polls k).getD 2 0))
      else if (polls k).getD 2 0 ∈ OsCmd3ErrorCodesValues then
        OsCmdOutcome.deviceError ((polls k).getD 2 0) (osCmd3ErrorName ((polls k).getD 2 0))
      else OsCmdOutcome.unknownError ((polls k).getD 2 0) := by
    rw [hskiph, hrdCheckResponseAux, h]
    rw [if_neg (by decide), if_pos rfl]
  refine ⟨?_, ?_, ?_, ?_⟩
  · intro hc
    rw [henc, if_pos hc, hhrd, if_pos hc]
    exact ⟨rfl, rfl⟩
  · intro hc
    refine ⟨by rw [henc, if_neg hc], ?_, ?_⟩
    · intro hc3
      rw [hhrd, if_neg hc, if_pos hc3]
    · intro hc3
      rw [hhrd, if_neg hc, if_neg hc3]
  · intro v
    rw [henc]
    split <;> simp
  · rw [hhrd]
    split
    · simp
    · split <;> simp

/-- Witness for C9: a known code (252, `CMD_ABORTED`) and an unknown code (77),
each observed at the first poll. -/
theorem error_with_reply_decoding_witness :
    (encoderCheckResponse 1000 (fun _ => [3, 0, 252, 0, 0, 0, 0, 0]) =
      OsCmdOutcome.deviceError 252 "CMD_ABORTED" ∧
     hrdCheckResponse 1000 (fun _ => [3, 0, 252, 0, 0, 0, 0, 0]) =
      OsCmdOutcome.deviceError 252 "CMD_ABORTED") ∧
    encoderCheckResponse 1000 (fun _ => [3, 0, 77, 0, 0, 0, 0, 0]) =
      OsCmdOutcome.unknownError 77 := by
  refine ⟨?_, ?_⟩
  · have h := (error_with_reply_decoding 1000 (fun _ => [3, 0, 252, 0, 0, 0, 0, 0]) 0
      (fun j hj => absurd hj (by omega)) (by norm_num) rfl).1 (by decide)
    simpa [osCmdErrorName] using h
  · have h := ((error_with_reply_decoding 1000 (fun _ => [3, 0, 77, 0, 0, 0, 0, 0]) 0
      (fun j hj => absurd hj (by omega)) (by norm_num) rfl).2.1 (by decide)).1
    simpa using h

/-- Claim C8: the commutation-offset adapter decodes a success-with-reply
response as the 16-bit big-endian value `response[2] << 8 | response[3]`;
in particular reply bytes `[2]=0x01, [3]=0x2C` decode to `0x012C = 300`. -/
theorem commutation_offset_decode (timeoutMs : ℕ) (polls : ℕ → List ℕ)
    (h : (polls 0).getD 0 0 = OsCmdStatus.COMPLETED_NOERROR_WITHREPLY) :
    commutationCheckResponse timeoutMs polls =
      OsCmdOutcome.successValue ((polls 0).getD 2 0 <<< 8 ||| (polls 0).getD 3 0) ∧
    commutationCheckResponse 25000 (fun _ => [1, 0, 0x01, 0x2C, 0, 0, 0, 0]) =
      OsCmdOutcome.successValue 300 := by
  constructor
  · unfold commutationCheckResponse
    rw [commutationCheckResponseAux, h]
    rw [if_pos rfl]
  · unfold commutationCheckResponse
    rw [commutationCheckResponseAux]
    norm_num [OsCmdStatus.COMPLETED_NOERROR_WITHREPLY]
    decide

/-- Witness for C8: applying the decode theorem at the concrete reply
`[1, 0, 0x01, 0x2C, 0, 0, 0, 0]` yields the 300-tick electrical angle offset. -/
theorem commutation_offset_decode_witness :
    commutationCheckResponse 25000 (fun _ => [1, 0, 0x01, 0x2C, 0, 0, 0, 0]) =
      OsCmdOutcome.successValue 300 :=
  (commutation_offset_decode 25000 (fun _ => [1, 0, 0x01, 0x2C, 0, 0, 0, 0]) rfl).2

/-! ## 32-bit big-endian round trip (claim C7) -/

/-- Masking with a shifted mask then shifting right equals shifting right then
masking. -/
theorem and_shiftLeft_shiftRight (v m k : ℕ) :
    (v &&& (m <<< k)) >>> k = (v >>> k) &&& m := by
  apply Nat.eq_of_testBit_eq
  intro j
  simp only [Nat.testBit_shiftRight, Nat.testBit_and, Nat.testBit_shiftLeft]
  have hk : k ≤ k + j := Nat.le_add_right k j
  simp [hk, Nat.add_sub_cancel_left]

/-- A left shift or-ed with a value below the shift width is their sum. -/
theorem shiftLeft_or_eq_add (a b k : ℕ) (hb : b < 2 ^ k) :
    a <<< k ||| b = a * 2 ^ k + b := by
  rw [Nat.shiftLeft_eq, Nat.mul_comm, ← Nat.mul_add_lt_is_or hb a, Nat.mul_comm]

/-- The four big-endian bytes `(b2, b3, b4, b5)` that the open-loop field-mode
setters compute, arithmetically. -/
theorem openLoopFieldCommand_bytes (v : ℕ) :
    v &&& 0x000000FF = v % 2 ^ 8 ∧
    (v &&& 0x0000FF00) >>> 8 = v / 2 ^ 8 % 2 ^ 8 ∧
    (v &&& 0x00FF0000) >>> 16 = v / 2 ^ 16 % 2 ^ 8 ∧
    (v &&& 0xFF000000) >>> 24 = v / 2 ^ 24 % 2 ^ 8 := by
  have h8 : (0x000000FF : ℕ) = 2 ^ 8 - 1 := by norm_num
  have e1 : v &&& 0x000000FF = v % 2 ^ 8 := by
    rw [h8, Nat.and_pow_two_sub_one_eq_mod]
  have gen : ∀ k : ℕ, (v &&& (0x000000FF <<< k)) >>> k = v / 2 ^ k % 2 ^ 8 := by
    intro k
    rw [and_shiftLeft_shiftRight, h8, Nat.and_pow_two_sub_one_eq_mod,
      Nat.shiftRight_eq_div_pow]
  refine ⟨e1, ?_, ?_, ?_⟩
  · have := gen 8
    norm_num at this ⊢
    exact this
  · have := gen 16
    norm_num at this ⊢
    exact this
  · have := gen 24
    norm_num at this ⊢
    exact this

/-- Claim C7: for every value below `2^32`, packing it big-endian into command
bytes b2..b5 (as the open-loop field-mode setters do) and decoding those four
bytes with the adapters' 4-byte big-endian reply rule
(`payload[2] << 24 | payload[3] << 16 | payload[4] << 8 | payload[5]`)
yields the value again. -/
theorem encode_decode_roundtrip (sub value : ℕ) (hv : value < 2 ^ 32) :
    decodeReply4 (openLoopFieldCommand sub value) = value := by
  obtain ⟨e5, e4, e3, e2⟩ := openLoopFieldCommand_bytes value
  unfold decodeReply4 openLoopFieldCommand
  simp only [List.getD, List.get?_eq_getElem?, List.getElem?_cons_zero,
    List.getElem?_cons_succ, Option.getD_some]
  rw [e5, e4, e3, e2]
  have h5 : value % 2 ^ 8 < 2 ^ 8 := Nat.mod_lt _ (by norm_num)
  have h4 : value / 2 ^ 8 % 2 ^ 8 < 2 ^ 8 := Nat.mod_lt _ (by norm_num)
  have h3 : value / 2 ^ 16 % 2 ^ 8 < 2 ^ 8 := Nat.mod_lt _ (by norm_num)
  rw [Nat.lor_assoc, Nat.lor_assoc]
  rw [shiftLeft_or_eq_add _ _ 8 h5]
  have hb16 : value / 2 ^ 8 % 2 ^ 8 * 2 ^ 8 + value % 2 ^ 8 < 2 ^ 16 := by omega
  rw [shiftLeft_or_eq_add _ _ 16 hb16]
  have hb24 : value / 2 ^ 16 % 2 ^ 8 * 2 ^ 16 +
      (value / 2 ^ 8 % 2 ^ 8 * 2 ^ 8 + value % 2 ^ 8) < 2 ^ 24 := by omega
  rw [shiftLeft_or_eq_add _ _ 24 hb24]
  omega

/-- Witness for C7 at the concrete value `0x12345678`. -/
theorem encode_decode_roundtrip_witness :
    decodeReply4 (openLoopFieldCommand 0 0x12345678) = 0x12345678 :=
  encode_decode_roundtrip 0 0x12345678 (by norm_num)

/-! ## Motion profile supervisors (`profiler_helpers.py`) -/

/-- Python `int(...)` truncation toward zero on a rational. -/
def pyInt (q : ℚ) : ℤ :=
  if 0 ≤ q then ⌊q⌋ else ⌈q⌉

/-- The `VelocityParametersFrame` enumeration. -/
inductive VelocityParametersFrame
  | MOTOR_SHAFT_FRAME
  | DRIVE_SHAFT_FRAME
  | VELOCITY_CONTROL_FRAME
  | POSITION_CONTROL_FRAME
deriving DecidableEq

/-- Device-parameter writes performed by the profile supervisors through `od`.
Ratios and physical quantities are exact rationals standing for Python
floats; parameters written after an `int(...)` conversion carry an integer. -/
inductive ProfilerOdWrite
  | profile_acceleration (v : ℤ)
  | profile_deceleration (v : ℤ)
  | profile_velocity (v : ℤ)
  | target_velocity (v : ℚ)
  | target_torque (v : ℚ)
  | torque_slope (v : ℚ)
  | target_position (v : ℤ)
deriving DecidableEq

/-- State of a `TorqueProfileHandler` (after `__init__`: slope 0, target 0,
tolerance 0, no timeout, no stabilization duration). -/
structure TorqueProfileHandler where
  torque_slope : ℚ
  target_torque : ℚ
  target_tolerance : ℚ
  profiler_timeout : Option ℚ
  stabilization_duration : Option ℕ

/-- `TorqueProfileHandler.set_profiler_configuration`: stores and writes the
torque slope (no frame conversion is applied), stores the target tolerance,
and optionally updates timeout and stabilization duration.  The target torque
is neither reset nor written. -/
def TorqueProfileHandler.set_profiler_configuration (self : TorqueProfileHandler)
    (torque_slope : ℚ) (target_tolerance : ℚ)
    (profiler_timeout : Option ℚ) (stabilization_duration : Option ℕ) :
    TorqueProfileHandler × List ProfilerOdWrite :=
  ({ self with
      torque_slope := torque_slope,
      target_tolerance := target_tolerance,
      profiler_timeout :=
        match profiler_timeout with
        | some v => some v
        | none => self.profiler_timeout,
      stabilization_duration :=
        match stabilization_duration with
        | some v => some v
        | none => self.stabilization_duration },
   [ProfilerOdWrite.torque_slope torque_slope])

/-- State of a `VelocityProfileHandler`.  Times (`profiler_timeout`,
`stabilization_duration`, `stabilization_time`) are in the model's
millisecond clock. -/
structure VelocityProfileHandler where
  si_unit_scaling_factor : ℚ
  tachometer_ratio_factor : ℚ
  gear_ratio_factor : ℚ
  gearbox_ratio : ℚ
  acceleration : ℚ
  deceleration : ℚ
  target_tolerance : ℚ
  profiler_timeout : ℕ
  stabilization_duration : ℕ
  stabilization_time : Option ℕ
  target_velocity : ℚ
  configured_frame : Option VelocityParametersFrame
  configured_frame_to_velocity_control_frame : ℚ

/-- `VelocityProfileHandler.set_profiler_configuration`: selects the
configured-frame → velocity-control-frame conversion factor, converts
tolerance/acceleration/deceleration with it, writes the converted
acceleration and deceleration (scaled by the SI factor and truncated by
`int`), optionally updates timeout and stabilization duration, then resets
the target velocity to 0 and writes it. -/
def VelocityProfileHandler.set_profiler_configuration (self : VelocityProfileHandler)
    (velocity_parameters_frame : VelocityParametersFrame)
    (acceleration deceleration target_tolerance : ℚ)
    (profiler_timeout : Option ℕ) (stabilization_duration : Option ℕ) :
    VelocityProfileHandler × List ProfilerOdWrite :=
  let factor : ℚ :=
    match velocity_parameters_frame with
    | VelocityParametersFrame.DRIVE_SHAFT_FRAME =>
        self.gearbox_ratio / self.tachometer_ratio_factor
    | VelocityParametersFrame.MOTOR_SHAFT_FRAME =>
        1 / self.tachometer_ratio_factor
    | VelocityParametersFrame.VELOCITY_CONTROL_FRAME => 1
    | VelocityParametersFrame.POSITION_CONTROL_FRAME =>
        self.gear_ratio_factor / self.tachometer_ratio_factor
  ({ self with
      configured_frame := some velocity_parameters_frame,
      configured_frame_to_velocity_control_frame := factor,
      target_tolerance := target_tolerance * factor,
      acceleration := acceleration * factor,
      deceleration := deceleration * factor,
      profiler_timeout :=
        match profiler_timeout with
        | some v => v
        | none => self.profiler_timeout,
      stabilization_duration :=
        match stabilization_duration with
        | some v => v
        | none => self.stabilization_duration,
      target_velocity := 0 },
   [ProfilerOdWrite.profile_acceleration (pyInt (acceleration * factor * self.si_unit_scaling_factor)),
    ProfilerOdWrite.profile_deceleration (pyInt (deceleration * factor * self.si_unit_scaling_factor)),
    ProfilerOdWrite.target_velocity 0])

/-- State of a `ProfilePositionHandler`.  Times are in the model's
millisecond clock; `DEFAULT_TARGET_TOLERANCE = 30`. -/
structure ProfilePositionHandler where
  si_unit_scaling_factor : ℚ
  tachometer_ratio_factor : ℚ
  gear_ratio_factor : ℚ
  gearbox_ratio : ℚ
  acceleration : ℚ
  deceleration : ℚ
  max_velocity : ℚ
  target_tolerance : ℚ
  profiler_timeout : ℕ
  stabilization_duration : ℕ
  stabilization_time : Option ℕ
  target_position : Option ℤ
  configured_frame : Option VelocityParametersFrame
  configured_frame_to_position_control_frame : ℚ

/-- `ProfilePositionHandler.set_profiler_configuration`: selects the
configured-frame → position-control-frame conversion factor, converts
acceleration/deceleration/max-velocity with it, writes them (scaled by the
SI factor and truncated by `int`), and optionally updates tolerance, timeout
and stabilization duration.  The target position is neither reset nor
written. -/
def ProfilePositionHandler.set_profiler_configuration (self : ProfilePositionHandler)
    (velocity_parameters_frame : VelocityParametersFrame)
    (acceleration deceleration max_velocity : ℚ)
    (target_tolerance : Option ℚ) (profiler_timeout : Option ℕ)
    (stabilization_duration : Option ℕ) :
    ProfilePositionHandler × List ProfilerOdWrite :=
  let factor : ℚ :=
    match velocity_parameters_frame with
    | VelocityParametersFrame.DRIVE_SHAFT_FRAME =>
        self.gearbox_ratio / self.gear_ratio_factor
    | VelocityParametersFrame.MOTOR_SHAFT_FRAME =>
        1 / self.gear_ratio_factor
    | VelocityParametersFrame.POSITION_CONTROL_FRAME => 1
    | VelocityParametersFrame.VELOCITY_CONTROL_FRAME =>
        self.tachometer_ratio_factor / self.gear_ratio_factor
  ({ self with
      configured_frame := some velocity_parameters_frame,
      configured_frame_to_position_control_frame := factor,
      acceleration := acceleration * factor,
      deceleration := deceleration * factor,
      max_velocity := max_velocity * factor,
      target_tolerance :=
        match target_tolerance with
        | some v => v
        | none => self.target_tolerance,
      profiler_timeout :=
        match profiler_timeout with
        | some v => v
        | none => self.profiler_timeout,
      stabilization_duration :=
        match stabilization_duration with
        | some v => v
        | none => self.stabilization_duration },
   [ProfilerOdWrite.profile_acceleration (pyInt (acceleration * factor * self.si_unit_scaling_factor)),
    ProfilerOdWrite.profile_deceleration (pyInt (deceleration * factor * self.si_unit_scaling_factor)),
    ProfilerOdWrite.profile_velocity (pyInt (max_velocity * factor * self.si_unit_scaling_factor))])

/-- State-control pulses issued through `sc` by `start_trajectory`. -/
inductive ScAction
  | pp_start_next_position_now
  | pp_reset_bits
deriving DecidableEq

/-- `ProfilePositionHandler.start_trajectory` at model clock `now`: saves and
writes the target position, pulses the profiler (`pp_start_next_position_now`,
a 10 ms settle sleep, `pp_reset_bits`), then arms the stabilization deadline
at the post-sleep clock plus the stabilization duration. -/
def ProfilePositionHandler.start_trajectory (self : ProfilePositionHandler)
    (target_position : ℤ) (now : ℕ) :
    ProfilePositionHandler × List ProfilerOdWrite × List ScAction :=
  ({ self with
      target_position := some target_position,
      stabilization_time := some (now + 10 + self.stabilization_duration) },
   [ProfilerOdWrite.target_position target_position],
   [ScAction.pp_start_next_position_now, ScAction.pp_reset_bits])

/-- `ProfilePositionHandler.is_target_reached` polled at model clock `now`
with the device's live `position_demand_internal_value` reading.  `none`
embeds the `pytest.fail` when no trajectory was started (and the `TypeError`
a comparison against an unset `stabilization_time` would raise).
`math.isclose(..., abs_tol=t)` is embedded as `|a - b| ≤ t` (its relative
`1e-09` component is a float artifact ignored for the integer tick values
used here). -/
def ProfilePositionHandler.is_target_reached (self : ProfilePositionHandler)
    (expected_position : Option ℤ) (now : ℕ) (demand_position_internal : ℤ) :
    Option (Bool × ProfilePositionHandler) :=
  match self.target_position with
  | none => none
  | some tp =>
    let expected_position_internal : ℤ :=
      match expected_position with
      | none => tp
      | some e => e
    if |(demand_position_internal : ℚ) - (expected_position_internal : ℚ)| ≤
        self.target_tolerance then
      match self.stabilization_time with
      | none => none
      | some stab => some (decide (now > stab), self)
    else
      some (false,
        { self with stabilization_time := some (now + self.stabilization_duration) })

/-- A sequence of `is_target_reached()` polls (as in `go_to_position`), each a
pair (model clock, demand reading), threading the supervisor state and
collecting the returned booleans. -/
def ProfilePositionHandler.runIsTargetReached (self : ProfilePositionHandler)
    (polls : List (ℕ × ℤ)) : Option (List Bool × ProfilePositionHandler) :=
  match polls with
  | [] => some ([], self)
  | (now, demand) :: rest =>
    match self.is_target_reached none now demand with
    | none => none
    | some (b, st') =>
      match st'.runIsTargetReached rest with
      | none => none
      | some (bs, st'') => some (b :: bs, st'')

/-! ## Toolbox (`toolbox.py`) -/

/-- `get_si_unit_scaling_factor`: the SI-prefix-coded `si_unit_velocity`
value selects the velocity scaling factor; any other code falls off the end
of the function (Python returns `None`). -/
def get_si_unit_scaling_factor (si_unit_velocity : ℕ) : Option ℕ :=
  if si_unit_velocity = 11814656 then some 1
  else if si_unit_velocity = 4290004736 then some 10
  else if si_unit_velocity = 4273227520 then some 100
  else if si_unit_velocity = 4256450304 then some 1000
  else none

/-- Claim C10: the SI-unit scaling lookup returns a factor only for the four
known coded SI-prefix values (1, 10, 100, 1000 respectively); every other
code yields no factor at all. -/
theorem si_unit_scaling_factor_known_codes_only (c : ℕ) :
    get_si_unit_scaling_factor 11814656 = some 1 ∧
    get_si_unit_scaling_factor 4290004736 = some 10 ∧
    get_si_unit_scaling_factor 4273227520 = some 100 ∧
    get_si_unit_scaling_factor 4256450304 = some 1000 ∧
    ((get_si_unit_scaling_factor c).isSome ↔
      c ∈ [11814656, 4290004736, 4273227520, 4256450304]) := by
  refine ⟨by decide, by decide, by decide, by decide, ?_⟩
  unfold get_si_unit_scaling_factor
  split_ifs <;> simp_all

/-- Claim C4: the conversion factor selected by
`set_profiler_configuration`.  Position supervisor: 1 for the
position-control frame, `1 / gear_ratio` for the motor-shaft frame,
`gearbox_ratio / gear_ratio` for the drive-shaft frame and
`tachometer_ratio / gear_ratio` for the velocity-control frame; the velocity
supervisor selects the symmetric factors against the tachometer ratio.  In
particular the position-control → position-control conversion leaves the
configured values identical. -/
theorem frame_conversion_factors (hp : ProfilePositionHandler)
    (hv : VelocityProfileHandler) (a d mv tol : ℚ) (tt : Option ℚ) (pt sd : Option ℕ) :
    ((hp.set_profiler_configuration VelocityParametersFrame.POSITION_CONTROL_FRAME
        a d mv tt pt sd).1.configured_frame_to_position_control_frame = 1) ∧
    ((hp.set_profiler_configuration VelocityParametersFrame.MOTOR_SHAFT_FRAME
        a d mv tt pt sd).1.configured_frame_to_position_control_frame =
      1 / hp.gear_ratio_factor) ∧
    ((hp.set_profiler_configuration VelocityParametersFrame.DRIVE_SHAFT_FRAME
        a d mv tt pt sd).1.configured_frame_to_position_control_frame =
      hp.gearbox_ratio / hp.gear_ratio_factor) ∧
    ((hp.set_profiler_configuration VelocityParametersFrame.VELOCITY_CONTROL_FRAME
        a d mv tt pt sd).1.configured_frame_to_position_control_frame =
      hp.tachometer_ratio_factor / hp.gear_ratio_factor) ∧
    ((hv.set_profiler_configuration VelocityParametersFrame.VELOCITY_CONTROL_FRAME
        a d tol pt sd).1.configured_frame_to_velocity_control_frame = 1) ∧
    ((hv.set_profiler_configuration VelocityParametersFrame.MOTOR_SHAFT_FRAME
        a d tol pt sd).1.configured_frame_to_velocity_control_frame =
      1 / hv.tachometer_ratio_factor) ∧
    ((hv.set_profiler_configuration VelocityParametersFrame.DRIVE_SHAFT_FRAME
        a d tol pt sd).1.configured_frame_to_velocity_control_frame =
      hv.gearbox_ratio / hv.tachometer_ratio_factor) ∧
    ((hv.set_profiler_configuration VelocityParametersFrame.POSITION_CONTROL_FRAME
        a d tol pt sd).1.configured_frame_to_velocity_control_frame =
      hv.gear_ratio_factor / hv.tachometer_ratio_factor) ∧
    ((hp.set_profiler_configuration VelocityParametersFrame.POSITION_CONTROL_FRAME
        a d mv tt pt sd).1.acceleration = a ∧
     (hp.set_profiler_configuration VelocityParametersFrame.POSITION_CONTROL_FRAME
        a d mv tt pt sd).1.deceleration = d ∧
     (hp.set_profiler_configuration VelocityParametersFrame.POSITION_CONTROL_FRAME
        a d mv tt pt sd).1.max_velocity = mv) := by
  unfold ProfilePositionHandler.set_profiler_configuration
    VelocityProfileHandler.set_profiler_configuration
  norm_num

/-- Counterexample to C5 as stated: the torque supervisor's
`set_profiler_configuration` neither resets the target to zero nor performs
any target write — on a handler whose target torque is 7, the target stays 7
and the only device write is the slope. -/
theorem profiler_config_resets_target_counterexample :
    (TorqueProfileHandler.set_profiler_configuration
        ⟨0, 7, 0, none, none⟩ 5 2 none none).1.target_torque = 7 ∧
    (7 : ℚ) ≠ 0 ∧
    (TorqueProfileHandler.set_profiler_configuration
        ⟨0, 7, 0, none, none⟩ 5 2 none none).2 =
      [ProfilerOdWrite.torque_slope 5] := by
  refine ⟨rfl, by norm_num, rfl⟩

/-- Claim C5 (amended): `set_profiler_configuration` writes the profile
parameters for each supervisor variant — velocity and position convert
acceleration/deceleration (and, for position, max velocity) into the
device's internal frame via the precomputed ratio factor and SI scaling
before writing; the velocity supervisor additionally resets the target to
zero (and writes it); the torque supervisor writes the slope unconverted;
neither the torque nor the position supervisor resets or writes its
target. -/
theorem profiler_config_converts_and_writes (hv : VelocityProfileHandler)
    (hp : ProfilePositionHandler) (ht : TorqueProfileHandler)
    (frame : VelocityParametersFrame) (a d tol mv slope : ℚ)
    (tt : Option ℚ) (pt sd : Option ℕ) (ptq : Option ℚ) (sdt : Option ℕ) :
    ((hv.set_profiler_configuration frame a d tol pt sd).1.acceleration =
        a * (hv.set_profiler_configuration frame a d tol pt sd).1.configured_frame_to_velocity_control_frame ∧
     (hv.set_profiler_configuration frame a d tol pt sd).1.deceleration =
        d * (hv.set_profiler_configuration frame a d tol pt sd).1.configured_frame_to_velocity_control_frame ∧
     (hv.set_profiler_configuration frame a d tol pt sd).1.target_tolerance =
        tol * (hv.set_profiler_configuration frame a d tol pt sd).1.configured_frame_to_velocity_control_frame ∧
     (hv.set_profiler_configuration frame a d tol pt sd).2 =
       [ProfilerOdWrite.profile_acceleration
          (pyInt ((hv.set_profiler_configuration frame a d tol pt sd).1.acceleration *
            hv.si_unit_scaling_factor)),
        ProfilerOdWrite.profile_deceleration
          (pyInt ((hv.set_profiler_configuration frame a d tol pt sd).1.deceleration *
            hv.si_unit_scaling_factor)),
        ProfilerOdWrite.target_velocity 0] ∧
     (hv.set_profiler_configuration frame a d tol pt sd).1.target_velocity = 0) ∧
    ((hp.set_profiler_configuration frame a d mv tt pt sd).1.acceleration =
        a * (hp.set_profiler_configuration frame a d mv tt pt sd).1.configured_frame_to_position_control_frame ∧
     (hp.set_profiler_configuration frame a d mv tt pt sd).1.deceleration =
        d * (hp.set_profiler_configuration frame a d mv tt pt sd).1.configured_frame_to_position_control_frame ∧
     (hp.set_profiler_configuration frame a d mv tt pt sd).1.max_velocity =
        mv * (hp.set_profiler_configuration frame a d mv tt pt sd).1.configured_frame_to_position_control_frame ∧
     (hp.set_profiler_configuration frame a d mv tt pt sd).2 =
       [ProfilerOdWrite.profile_acceleration
          (pyInt ((hp.set_profiler_configuration frame a d mv tt pt sd).1.acceleration *
            hp.si_unit_scaling_factor)),
        ProfilerOdWrite.profile_deceleration
          (pyInt ((hp.set_profiler_configuration frame a d mv tt pt sd).1.deceleration *
            hp.si_unit_scaling_factor)),
        ProfilerOdWrite.profile_velocity
          (pyInt ((hp.set_profiler_configuration frame a d mv tt pt sd).1.max_velocity *
            hp.si_unit_scaling_factor))] ∧
     (hp.set_profiler_configuration frame a d mv tt pt sd).1.target_position =
        hp.target_position) ∧
    ((ht.set_profiler_configuration slope tol ptq sdt).1.torque_slope = slope ∧
     (ht.set_profiler_configuration slope tol ptq sdt).2 =
       [ProfilerOdWrite.torque_slope slope] ∧
     (ht.set_profiler_configuration slope tol ptq sdt).1.target_torque =
        ht.target_torque) := by
  cases frame <;>
    simp [VelocityProfileHandler.set_profiler_configuration,
      ProfilePositionHandler.set_profiler_configuration,
      TorqueProfileHandler.set_profiler_configuration]

/-- Step characterization of `is_target_reached` at an in-tolerance poll:
it reports whether the stabilization deadline has passed and leaves the
state unchanged. -/
theorem is_target_reached_in_tol (h : ProfilePositionHandler) (tp : ℤ) (st : ℕ)
    (now : ℕ) (demand : ℤ)
    (h1 : h.target_position = some tp) (h4 : h.stabilization_time = some st)
    (hin : |(demand : ℚ) - (tp : ℚ)| ≤ h.target_tolerance) :
    h.is_target_reached none now demand = some (decide (now > st), h) := by
  simp only [ProfilePositionHandler.is_target_reached, h1, h4]
  rw [if_pos hin]

/-- Step characterization of `is_target_reached` at an out-of-tolerance poll:
it returns `false` and resets the stabilization deadline forward to the
current clock plus the stabilization duration. -/
theorem is_target_reached_out_tol (h : ProfilePositionHandler) (tp : ℤ)
    (now : ℕ) (demand : ℤ)
    (h1 : h.target_position = some tp)
    (hout : ¬ |(demand : ℚ) - (tp : ℚ)| ≤ h.target_tolerance) :
    h.is_target_reached none now demand =
      some (false,
        { h with stabilization_time := some (now + h.stabilization_duration) }) := by
  simp only [ProfilePositionHandler.is_target_reached, h1]
  rw [if_neg hout]

/-- The element at the length of the left part of an append. -/
theorem getD_append_cons {α : Type} (d : α) :
    ∀ (xs : List α) (y : α) (ys : List α), (xs ++ y :: ys).getD xs.length d = y := by
  intro xs
  induction xs with
  | nil => intro y ys; rfl
  | cons x xs ih => intro y ys; simpa [List.getD] using ih y ys

/-- A successful poll run returns one boolean per poll. -/
theorem runIsTargetReached_length (polls : List (ℕ × ℤ)) :
    ∀ (h : ProfilePositionHandler) (results : List Bool) (hF : ProfilePositionHandler),
      h.runIsTargetReached polls = some (results, hF) →
      results.length = polls.length := by
  induction polls with
  | nil =>
    intro h results hF hr
    simp only [ProfilePositionHandler.runIsTargetReached, Option.some.injEq,
      Prod.mk.injEq] at hr
    simp [← hr.1]
  | cons p rest ih =>
    intro h results hF hr
    obtain ⟨now, demand⟩ := p
    unfold ProfilePositionHandler.runIsTargetReached at hr
    cases hs : h.is_target_reached none now demand with
    | none => rw [hs] at hr; simp at hr
    | some bh =>
      obtain ⟨b, st'⟩ := bh
      rw [hs] at hr
      dsimp only at hr
      cases hrest : st'.runIsTargetReached rest with
      | none => rw [hrest] at hr; simp at hr
      | some r2 =>
        obtain ⟨bs, st''⟩ := r2
        rw [hrest] at hr
        simp only [Option.some.injEq, Prod.mk.injEq] at hr
        rw [← hr.1]
        simp [ih st' bs st'' hrest]

/-- A poll run over an appended list decomposes into two runs. -/
theorem runIsTargetReached_append (xs ys : List (ℕ × ℤ)) :
    ∀ (h : ProfilePositionHandler),
      h.runIsTargetReached (xs ++ ys) =
        match h.runIsTargetReached xs with
        | none => none
        | some (bs, h1) =>
          match h1.runIsTargetReached ys with
          | none => none
          | some (cs, h2) => some (bs ++ cs, h2) := by
  induction xs with
  | nil =>
    intro h
    simp only [List.nil_append]
    conv_rhs => rw [ProfilePositionHandler.runIsTargetReached]
    cases hys : h.runIsTargetReached ys with
    | none => simp [hys]
    | some r => obtain ⟨cs, h2⟩ := r; simp [hys]
  | cons p rest ih =>
    intro h
    obtain ⟨now, demand⟩ := p
    simp only [List.cons_append]
    rw [ProfilePositionHandler.runIsTargetReached]
    conv_rhs => rw [ProfilePositionHandler.runIsTargetReached]
    cases hs : h.is_target_reached none now demand with
    | none => simp
    | some bh =>
      obtain ⟨b, st'⟩ := bh
      simp only [hs]
      rw [ih st']
      cases hrest : st'.runIsTargetReached rest with
      | none => simp [hrest]
      | some r2 =>
        obtain ⟨bs, st''⟩ := r2
        simp only [hrest]
        cases hys : st''.runIsTargetReached ys with
        | none => simp [hys]
        | some r3 => obtain ⟨cs, h3⟩ := r3; simp [hys]

/-- Invariant of a poll run with strictly increasing poll times: the fixed
configuration fields are preserved, and the final stabilization deadline is
either the initial one or was last reset by some processed poll; in either
case it is at least `q.1 + D` for every out-of-tolerance processed poll `q`. -/
theorem runIsTargetReached_stab_invariant (tp : ℤ) (tol : ℚ) (D : ℕ) :
    ∀ (pre : List (ℕ × ℤ)) (h : ProfilePositionHandler) (st0 : ℕ)
      (results : List Bool) (hF : ProfilePositionHandler),
      h.target_position = some tp → h.target_tolerance = tol →
      h.stabilization_duration = D → h.stabilization_time = some st0 →
      List.Pairwise (fun a b : ℕ × ℤ => a.1 < b.1) pre →
      h.runIsTargetReached pre = some (results, hF) →
      hF.target_position = some tp ∧ hF.target_tolerance = tol ∧
      hF.stabilization_duration = D ∧
      ∃ stF, hF.stabilization_time = some stF ∧
        (stF = st0 ∨ ∃ q ∈ pre, stF = q.1 + D) ∧
        (∀ q ∈ pre, ¬(|(q.2 : ℚ) - (tp : ℚ)| ≤ tol) → q.1 + D ≤ stF) := by
  intro pre
  induction pre with
  | nil =>
    intro h st0 results hF h1 h2 h3 h4 hpw hr
    simp only [ProfilePositionHandler.runIsTargetReached, Option.some.injEq,
      Prod.mk.injEq] at hr
    rw [← hr.2]
    exact ⟨h1, h2, h3, st0, h4, Or.inl rfl, by simp⟩
  | cons q rest ih =>
    intro h st0 results hF h1 h2 h3 h4 hpw hr
    obtain ⟨tq, dq⟩ := q
    rw [List.pairwise_cons] at hpw
    obtain ⟨hlt, hpw'⟩ := hpw
    unfold ProfilePositionHandler.runIsTargetReached at hr
    by_cases hin : |(dq : ℚ) - (tp : ℚ)| ≤ tol
    · rw [is_target_reached_in_tol h tp st0 tq dq h1 h4 (h2 ▸ hin)] at hr
      dsimp only at hr
      cases hrest : h.runIsTargetReached rest with
      | none => rw [hrest] at hr; simp at hr
      | some r2 =>
        obtain ⟨bs, st''⟩ := r2
        rw [hrest] at hr
        simp only [Option.some.injEq, Prod.mk.injEq] at hr
        obtain ⟨hF1, hF2, hF3, stF, hstF, hdisj, hall⟩ :=
          ih h st0 bs st'' h1 h2 h3 h4 hpw' hrest
        rw [← hr.2]
        refine ⟨hF1, hF2, hF3, stF, hstF, ?_, ?_⟩
        · rcases hdisj with hd | ⟨q', hq', he⟩
          · exact Or.inl hd
          · exact Or.inr ⟨q', List.mem_cons_of_mem _ hq', he⟩
        · intro q' hq' hout
          rcases List.mem_cons.mp hq' with rfl | hq'
          · exact absurd hin hout
          · exact hall q' hq' hout
    · rw [is_target_reached_out_tol h tp tq dq h1 (h2 ▸ hin)] at hr
      dsimp only at hr
      set h' : ProfilePositionHandler :=
        { h with stabilization_time := some (tq + h.stabilization_duration) } with hh'
      cases hrest : h'.runIsTargetReached rest with
      | none => rw [hrest] at hr; simp at hr
      | some r2 =>
        obtain ⟨bs, st''⟩ := r2
        rw [hrest] at hr
        simp only [Option.some.injEq, Prod.mk.injEq] at hr
        have h'1 : h'.target_position = some tp := h1
        have h'2 : h'.target_tolerance = tol := h2
        have h'3 : h'.stabilization_duration = D := h3
        have h'4 : h'.stabilization_time = some (tq + D) := by rw [hh', h3]
        obtain ⟨hF1, hF2, hF3, stF, hstF, hdisj, hall⟩ :=
          ih h' (tq + D) bs st'' h'1 h'2 h'3 h'4 hpw' hrest
        rw [← hr.2]
        refine ⟨hF1, hF2, hF3, stF, hstF, ?_, ?_⟩
        · rcases hdisj with hd | ⟨q', hq', he⟩
          · exact Or.inr ⟨(tq, dq), List.mem_cons_self _ _, hd⟩
          · exact Or.inr ⟨q', List.mem_cons_of_mem _ hq', he⟩
        · intro q' hq' hout
          rcases List.mem_cons.mp hq' with rfl | hq'
          · rcases hdisj with hd | ⟨q2, hq2, he⟩
            · omega
            · have := hlt q2 hq2
              omega
          · exact hall q' hq' hout

/-- Claim C6: in a poll run started by `start_trajectory` (stabilization
deadline armed at `s + D`), `is_target_reached` returns `true` at a poll `p`
only if the demand reading at `p` is within tolerance of the target, the
stabilization duration has fully elapsed since the trajectory start
(`s + D < p.1`), and every earlier out-of-tolerance poll `q` lies at least a
full stabilization duration in the past (`q.1 + D < p.1`) — so first entry
into tolerance alone never yields `true` before the deadline expires;
moreover any out-of-tolerance poll returns `false` and resets the deadline
forward to its clock plus the stabilization duration. -/
theorem position_target_reached_requires_stabilization
    (h0 : ProfilePositionHandler) (tp : ℤ) (s D : ℕ)
    (polls : List (ℕ × ℤ)) (results : List Bool) (hF : ProfilePositionHandler)
    (pre : List (ℕ × ℤ)) (p : ℕ × ℤ) (suf : List (ℕ × ℤ))
    (htp : h0.target_position = some tp)
    (hst : h0.stabilization_time = some (s + D))
    (hD : h0.stabilization_duration = D)
    (hpw : List.Pairwise (fun a b : ℕ × ℤ => a.1 < b.1) polls)
    (hafter : ∀ q ∈ polls, s ≤ q.1)
    (hsplit : polls = pre ++ p :: suf)
    (hrun : h0.runIsTargetReached polls = some (results, hF))
    (htrue : results.getD pre.length false = true) :
    |(p.2 : ℚ) - (tp : ℚ)| ≤ h0.target_tolerance ∧
    s + D < p.1 ∧
    (∀ q ∈ pre, ¬(|(q.2 : ℚ) - (tp : ℚ)| ≤ h0.target_tolerance) → q.1 + D < p.1) ∧
    (∀ (now : ℕ) (demand : ℤ), ¬(|(demand : ℚ) - (tp : ℚ)| ≤ h0.target_tolerance) →
      h0.is_target_reached none now demand =
        some (false, { h0 with stabilization_time := some (now + D) })) := by
  subst hsplit
  have hreset : ∀ (now : ℕ) (demand : ℤ),
      ¬(|(demand : ℚ) - (tp : ℚ)| ≤ h0.target_tolerance) →
      h0.is_target_reached none now demand =
        some (false, { h0 with stabilization_time := some (now + D) }) := by
    intro now demand hout
    rw [← hD]
    exact is_target_reached_out_tol h0 tp now demand htp hout
  rw [runIsTargetReached_append pre (p :: suf) h0] at hrun
  cases hpre : h0.runIsTargetReached pre with
  | none => rw [hpre] at hrun; simp at hrun
  | some r1 =>
    obtain ⟨bs, h1⟩ := r1
    rw [hpre] at hrun
    dsimp only at hrun
    cases hps : h1.runIsTargetReached (p :: suf) with
    | none => rw [hps] at hrun; simp at hrun
    | some r2 =>
      obtain ⟨cs, h2⟩ := r2
      rw [hps] at hrun
      simp only [Option.some.injEq, Prod.mk.injEq] at hrun
      obtain ⟨hres, hhF⟩ := hrun
      have hpwpre : List.Pairwise (fun a b : ℕ × ℤ => a.1 < b.1) pre :=
        hpw.sublist (List.sublist_append_left _ _)
      obtain ⟨hP1, hP2, hP3, st1, hst1, hdisj, hall⟩ :=
        runIsTargetReached_stab_invariant tp h0.target_tolerance D pre h0 (s + D)
          bs h1 htp rfl hD hst hpwpre hpre
      have hlen : bs.length = pre.length :=
        runIsTargetReached_length pre h0 bs h1 hpre
      obtain ⟨tP, dP⟩ := p
      unfold ProfilePositionHandler.runIsTargetReached at hps
      by_cases hin : |(dP : ℚ) - (tp : ℚ)| ≤ h0.target_tolerance
      · rw [is_target_reached_in_tol h1 tp st1 tP dP hP1 hst1 (hP2 ▸ hin)] at hps
        dsimp only at hps
        cases hsuf : h1.runIsTargetReached suf with
        | none => rw [hsuf] at hps; simp at hps
        | some r3 =>
          obtain ⟨ds, h3⟩ := r3
          rw [hsuf] at hps
          simp only [Option.some.injEq, Prod.mk.injEq] at hps
          rw [← hres, ← hlen, ← hps.1] at htrue
          rw [getD_append_cons] at htrue
          have hgt : st1 < tP := by
            have := of_decide_eq_true htrue
            omega
          refine ⟨hin, ?_, ?_, hreset⟩
          · rcases hdisj with hd | ⟨q, hq, he⟩
            · omega
            · have hs' : s ≤ q.1 := hafter q (List.mem_append_left _ hq)
              omega
          · intro q hq hout
            have := hall q hq hout
            omega
      · rw [is_target_reached_out_tol h1 tp tP dP hP1 (hP2 ▸ hin)] at hps
        dsimp only at hps
        set h1' : ProfilePositionHandler :=
          { h1 with stabilization_time := some (tP + h1.stabilization_duration) } with hh1'
        cases hsuf : h1'.runIsTargetReached suf with
        | none => rw [hsuf] at hps; simp at hps
        | some r3 =>
          obtain ⟨ds, h3⟩ := r3
          rw [hsuf] at hps
          simp only [Option.some.injEq, Prod.mk.injEq] at hps
          rw [← hres, ← hlen, ← hps.1] at htrue
          rw [getD_append_cons] at htrue
          exact absurd htrue (by simp)

/-- Witness for C6: target 0, tolerance 30, stabilization duration 100 ms,
deadline armed at clock 100.  The demand starts 500 ticks away (resetting the
deadline to 110), then enters tolerance at clock 20 (no `true` yet: the
deadline has not expired) and is still in tolerance at clock 130, where
`is_target_reached` first returns `true`. -/
theorem position_target_reached_requires_stabilization_witness :
    (|((0 : ℤ) : ℚ) - ((0 : ℤ) : ℚ)| ≤
      (⟨1, 1, 1, 1, 0, 0, 0, 30, 20000, 100, some 100, some 0, none, 1⟩ :
        ProfilePositionHandler).target_tolerance) ∧
    0 + 100 < 130 ∧
    (∀ q ∈ [((10 : ℕ), (500 : ℤ)), (20, 0)],
      ¬(|(q.2 : ℚ) - ((0 : ℤ) : ℚ)| ≤
        (⟨1, 1, 1, 1, 0, 0, 0, 30, 20000, 100, some 100, some 0, none, 1⟩ :
          ProfilePositionHandler).target_tolerance) → q.1 + 100 < 130) ∧
    ((⟨1, 1, 1, 1, 0, 0, 0, 30, 20000, 100, some 100, some 0, none, 1⟩ :
        ProfilePositionHandler).is_target_reached none 35 500 =
      some (false,
        ⟨1, 1, 1, 1, 0, 0, 0, 30, 20000, 100, some 135, some 0, none, 1⟩)) := by
  have s1 : (⟨1, 1, 1, 1, 0, 0, 0, 30, 20000, 100, some 100, some 0, none, 1⟩ :
      ProfilePositionHandler).is_target_reached none 10 500 =
      some (false,
        ⟨1, 1, 1, 1, 0, 0, 0, 30, 20000, 100, some 110, some 0, none, 1⟩) := by
    simp only [ProfilePositionHandler.is_target_reached]
    norm_num
  have s2 : (⟨1, 1, 1, 1, 0, 0, 0, 30, 20000, 100, some 110, some 0, none, 1⟩ :
      ProfilePositionHandler).is_target_reached none 20 0 =
      some (false,
        ⟨1, 1, 1, 1, 0, 0, 0, 30, 20000, 100, some 110, some 0, none, 1⟩) := by
    simp only [ProfilePositionHandler.is_target_reached]
    norm_num
  have s3 : (⟨1, 1, 1, 1, 0, 0, 0, 30, 20000, 100, some 110, some 0, none, 1⟩ :
      ProfilePositionHandler).is_target_reached none 130 0 =
      some (true,
        ⟨1, 1, 1, 1, 0, 0, 0, 30, 20000, 100, some 110, some 0, none, 1⟩) := by
    simp only [ProfilePositionHandler.is_target_reached]
    norm_num
  have hrun : (⟨1, 1, 1, 1, 0, 0, 0, 30, 20000, 100, some 100, some 0, none, 1⟩ :
      ProfilePositionHandler).runIsTargetReached [(10, 500), (20, 0), (130, 0)] =
      some ([false, false, true],
        ⟨1, 1, 1, 1, 0, 0, 0, 30, 20000, 100, some 110, some 0, none, 1⟩) := by
    rw [ProfilePositionHandler.runIsTargetReached, s1]
    dsimp only
    rw [ProfilePositionHandler.runIsTargetReached, s2]
    dsimp only
    rw [ProfilePositionHandler.runIsTargetReached, s3]
    dsimp only
    rw [ProfilePositionHandler.runIsTargetReached]
  obtain ⟨c1, c2, c3, c4⟩ :=
    position_target_reached_requires_stabilization
      ⟨1, 1, 1, 1, 0, 0, 0, 30, 20000, 100, some 100, some 0, none, 1⟩
      0 0 100 [(10, 500), (20, 0), (130, 0)] [false, false, true]
      ⟨1, 1, 1, 1, 0, 0, 0, 30, 20000, 100, some 110, some 0, none, 1⟩
      [(10, 500), (20, 0)] (130, 0) []
      rfl (by norm_num) rfl
      (by simp [List.pairwise_cons])
      (fun q _ => Nat.zero_le _)
      rfl hrun rfl
  refine ⟨c1, c2, c3, ?_⟩
  have := c4 35 500 (by norm_num)
  convert this using 3

/-- Witness for C10: the known code 11814656 yields factor 1, and the
unknown code 999 yields no factor. -/
theorem si_unit_scaling_factor_known_codes_only_witness :
    get_si_unit_scaling_factor 11814656 = some 1 ∧
    ((get_si_unit_scaling_factor 999).isSome ↔
      999 ∈ [11814656, 4290004736, 4273227520, 4256450304]) :=
  ⟨(si_unit_scaling_factor_known_codes_only 999).1,
   (si_unit_scaling_factor_known_codes_only 999).2.2.2.2⟩
